import Mathlib

/-!
Verification of the QA-council test-generation core
(`src/agents/analyzer_agent.py`, `src/agents/generator_agent.py`,
`src/agents/orchestrator_agent.py`) against its specification.

The Python source is shallowly embedded: dictionaries with a fixed key set
become structures, `ast` nodes become the inductive `Py`, the `ast.NodeVisitor`
subclasses become structurally recursive state-passing functions, and functions
that write files return the path/content pair they would write (`Option` when
the source can return `None`).  Literal braces inside Python string templates
are written with the escapes `\x7b` / `\x7d`, and literal single quotes with
`\x27`; otherwise template text is reproduced verbatim.
-/

namespace QASpec

/-! ### String helpers

The Python `in` operator on strings is substring containment; `str.lower`,
`str.startswith`, `str.capitalize` and `"sep".join` have direct analogues.
`charsPref` / `charsSub` implement containment over the character list. -/

def charsPref : List Char → List Char → Bool
  | [], _ => true
  | _ :: _, [] => false
  | a :: as, b :: bs => a == b && charsPref as bs

def charsSub (pat : List Char) : List Char → Bool
  | [] => charsPref pat []
  | b :: bs => charsPref pat (b :: bs) || charsSub pat bs

/-- `strContains s pat` is the Python expression `pat in s` (substring containment). -/
def strContains (s pat : String) : Bool :=
  charsSub pat.toList s.toList

/-- ASCII case mapping for `str.lower` (all names in the analyzed source are
ASCII; non-ASCII case folding is out of scope). -/
def pyLowerChar (c : Char) : Char :=
  if 'A' ≤ c ∧ c ≤ 'Z' then Char.ofNat (c.toNat + 32) else c

def pyUpperChar (c : Char) : Char :=
  if 'a' ≤ c ∧ c ≤ 'z' then Char.ofNat (c.toNat - 32) else c

/-- Python `str.lower()`. -/
def pyLower (s : String) : String :=
  String.mk (s.toList.map pyLowerChar)

/-- Python `str.capitalize()`: first character uppercased, the rest lowercased. -/
def pyCapitalize (s : String) : String :=
  match s.toList with
  | [] => ""
  | c :: cs => String.mk (pyUpperChar c :: cs.map pyLowerChar)

/-- Python `str.split(sep)` for a one-character separator (every separator
used by the source is one character): always one part more than there are
separator occurrences. -/
def charsSplitOn (sep : Char) : List Char → List (List Char)
  | [] => [[]]
  | c :: cs =>
      let rest := charsSplitOn sep cs
      if c == sep then [] :: rest
      else
        match rest with
        | [] => [[c]]
        | r :: rs => (c :: r) :: rs

def strSplitChar (sep : Char) (s : String) : List String :=
  (charsSplitOn sep s.toList).map String.mk

/-- Python `str.startswith(pat)`. -/
def strStarts (s pat : String) : Bool :=
  charsPref pat.toList s.toList

/-- Python `str.endswith(pat)`. -/
def strEnds (s pat : String) : Bool :=
  charsPref pat.toList.reverse s.toList.reverse

/-- `filepath.replace("\\", "/")` — single-character replacement. -/
def backslashToSlash (s : String) : String :=
  String.mk (s.toList.map fun c => if c == '\\' then '/' else c)

/-- `Path(filepath).stem`: final path component with its last suffix removed
(a suffix exists only when the last dot sits strictly inside the name). -/
def pathStem (p : String) : String :=
  let nm := (strSplitChar '/' p).getLastD ""
  let cs := nm.toList
  let dotIdxs := (List.range cs.length).filter (fun i => cs.getD i ' ' == '.')
  match dotIdxs.getLast? with
  | some i => if 0 < i ∧ i + 1 < cs.length then String.mk (cs.take i) else nm
  | none => nm

/-- `l` is an initial segment of `L` (used to state sort stability). -/
def listLeads {α : Type} (l L : List α) : Prop :=
  ∃ t, l ++ t = L

/-! ### Complexity indicators (`FunctionAnalyzer.__init__`, analyzer_agent.py:26-34)

The Python dict with seven fixed boolean keys becomes a structure. -/

structure Complexity where
  uses_file_io : Bool := false
  uses_subprocess : Bool := false
  uses_http : Bool := false
  uses_os : Bool := false
  has_try_except : Bool := false
  has_conditionals : Bool := false
  has_loops : Bool := false
deriving Repr, DecidableEq

def Complexity.init : Complexity := {}

/-- Number of `True` values among the seven indicators (`sum(1 for v in
cx.values() if v)`). -/
def Complexity.countTrue (c : Complexity) : Nat :=
  (cond c.uses_file_io 1 0) + (cond c.uses_subprocess 1 0) + (cond c.uses_http 1 0) +
  (cond c.uses_os 1 0) + (cond c.has_try_except 1 0) + (cond c.has_conditionals 1 0) +
  (cond c.has_loops 1 0)

/-- `FunctionAnalyzer._classify_call` (analyzer_agent.py:81-90).  The name is
lowercased once; each keyword group is tested by substring containment.  Note
that the source tests the capitalised keyword `"Path"` against the lowercased
name. -/
def classify_call (nm : String) (cx : Complexity) : Complexity :=
  let lower := pyLower nm
  let cx := if strContains lower "open" || strContains lower "read_text" ||
               strContains lower "write_text" || strContains lower "read_bytes" then
    { cx with uses_file_io := true } else cx
  let cx := if strContains lower "subprocess" then
    { cx with uses_subprocess := true } else cx
  let cx := if strContains lower "httpx" || strContains lower "requests" ||
               strContains lower "aiohttp" || strContains lower "urllib" then
    { cx with uses_http := true } else cx
  let cx := if strContains lower "os." || strContains lower "path." ||
               strContains lower "Path" then
    { cx with uses_os := true } else cx
  cx

/-! ### Python AST embedding

The node shapes the analyzer dispatches on (`ast.Module`, function/class
definitions, the statement forms with visitor handlers, and the expression
forms used by `_call_name` / `_name_of` / `_constant_repr`).  `argumentsNode`
mirrors `ast.arguments` (positional args and their right-aligned defaults) and
`argNode` mirrors `ast.arg`.  Constants carry the Python value they denote. -/

inductive Py where
  | module (body : List Py)
  | functionDef (nm : String) (args : Py) (body : List Py) (decorators : List Py) (lineno : Nat)
  | asyncFunctionDef (nm : String) (args : Py) (body : List Py) (decorators : List Py) (lineno : Nat)
  | classDef (nm : String) (bases : List Py) (body : List Py) (decorators : List Py) (lineno : Nat)
  | argumentsNode (args : List Py) (defaults : List Py)
  | argNode (arg : String) (annot : Option Py)
  | assign (targets : List Py) (value : Py)
  | exprStmt (value : Py)
  | ret (value : Option Py)
  | raiseStmt (exc : Option Py)
  | tryStmt (body : List Py) (handlers : List Py) (orelse : List Py) (finalbody : List Py)
  | tryStar (body : List Py) (handlers : List Py) (orelse : List Py) (finalbody : List Py)
  | exceptHandler (body : List Py)
  | ifStmt (test : Py) (body : List Py) (orelse : List Py)
  | forStmt (target : Py) (iter : Py) (body : List Py) (orelse : List Py)
  | whileStmt (test : Py) (body : List Py) (orelse : List Py)
  | importStmt (names : List String)
  | importFrom (mod : Option String) (names : List String)
  | pass
  | name (id : String)
  | attribute (value : Py) (attr : String)
  | call (func : Py) (args : List Py)
  | constStr (s : String)
  | constInt (n : Int)
  | constBool (b : Bool)
  | constNone
  | listExpr (elts : List Py)
  | dictExpr

/-- `ast.iter_child_nodes`, in AST field order per node kind. -/
def Py.children : Py → List Py
  | .module body => body
  | .functionDef _ args body decorators _ => args :: body ++ decorators
  | .asyncFunctionDef _ args body decorators _ => args :: body ++ decorators
  | .classDef _ bases body decorators _ => bases ++ body ++ decorators
  | .argumentsNode args defaults => args ++ defaults
  | .argNode _ annot => annot.toList
  | .assign targets value => targets ++ [value]
  | .exprStmt value => [value]
  | .ret value => value.toList
  | .raiseStmt exc => exc.toList
  | .tryStmt body handlers orelse finalbody => body ++ handlers ++ orelse ++ finalbody
  | .tryStar body handlers orelse finalbody => body ++ handlers ++ orelse ++ finalbody
  | .exceptHandler body => body
  | .ifStmt test body orelse => test :: body ++ orelse
  | .forStmt target iter body orelse => target :: iter :: body ++ orelse
  | .whileStmt test body orelse => test :: body ++ orelse
  | .importStmt _ => []
  | .importFrom _ _ => []
  | .pass => []
  | .name _ => []
  | .attribute value _ => [value]
  | .call func args => func :: args
  | .constStr _ => []
  | .constInt _ => []
  | .constBool _ => []
  | .constNone => []
  | .listExpr elts => elts
  | .dictExpr => []

mutual

/-- Total number of AST nodes in a tree (used as fuel for the breadth-first
`walk`, which visits each node exactly once). -/
def Py.nodeCount : Py → Nat
  | .module body => 1 + Py.nodeCountList body
  | .functionDef _ args body decorators _ =>
      1 + Py.nodeCount args + Py.nodeCountList body + Py.nodeCountList decorators
  | .asyncFunctionDef _ args body decorators _ =>
      1 + Py.nodeCount args + Py.nodeCountList body + Py.nodeCountList decorators
  | .classDef _ bases body decorators _ =>
      1 + Py.nodeCountList bases + Py.nodeCountList body + Py.nodeCountList decorators
  | .argumentsNode args defaults => 1 + Py.nodeCountList args + Py.nodeCountList defaults
  | .argNode _ annot => 1 + Py.nodeCountOpt annot
  | .assign targets value => 1 + Py.nodeCountList targets + Py.nodeCount value
  | .exprStmt value => 1 + Py.nodeCount value
  | .ret value => 1 + Py.nodeCountOpt value
  | .raiseStmt exc => 1 + Py.nodeCountOpt exc
  | .tryStmt body handlers orelse finalbody =>
      1 + Py.nodeCountList body + Py.nodeCountList handlers +
        Py.nodeCountList orelse + Py.nodeCountList finalbody
  | .tryStar body handlers orelse finalbody =>
      1 + Py.nodeCountList body + Py.nodeCountList handlers +
        Py.nodeCountList orelse + Py.nodeCountList finalbody
  | .exceptHandler body => 1 + Py.nodeCountList body
  | .ifStmt test body orelse => 1 + Py.nodeCount test + Py.nodeCountList body + Py.nodeCountList orelse
  | .forStmt target iter body orelse =>
      1 + Py.nodeCount target + Py.nodeCount iter + Py.nodeCountList body + Py.nodeCountList orelse
  | .whileStmt test body orelse => 1 + Py.nodeCount test + Py.nodeCountList body + Py.nodeCountList orelse
  | .importStmt _ => 1
  | .importFrom _ _ => 1
  | .pass => 1
  | .name _ => 1
  | .attribute value _ => 1 + Py.nodeCount value
  | .call func args => 1 + Py.nodeCount func + Py.nodeCountList args
  | .constStr _ => 1
  | .constInt _ => 1
  | .constBool _ => 1
  | .constNone => 1
  | .listExpr elts => 1 + Py.nodeCountList elts
  | .dictExpr => 1

def Py.nodeCountList : List Py → Nat
  | [] => 0
  | n :: rest => Py.nodeCount n + Py.nodeCountList rest

def Py.nodeCountOpt : Option Py → Nat
  | none => 0
  | some n => Py.nodeCount n

end

/-- One step of the `ast.walk` breadth-first queue: pop the front node, yield it,
push its children at the back.  `fuel` bounds the number of pops; `Py.walk`
supplies exactly the number of nodes in the tree, which the traversal pops in
total, so the fuel never runs out. -/
def walkFuel : Nat → List Py → List Py
  | 0, _ => []
  | _ + 1, [] => []
  | fuel + 1, n :: rest => n :: walkFuel fuel (rest ++ n.children)

/-- `ast.walk(node)`: the node and all descendants, breadth-first. -/
def Py.walk (n : Py) : List Py :=
  walkFuel n.nodeCount [n]

/-! ### Small AST helpers (analyzer_agent.py:93-107, 213-267) -/

/-- The attribute-chain loop inside `_call_name`: collect `attr`s while the
value is an `Attribute`, returning the collected parts and the final base. -/
def attrChain : Py → List String → List String × Py
  | .attribute value attr, parts => attrChain value (parts ++ [attr])
  | base, parts => (parts, base)

/-- `_call_name` (analyzer_agent.py:93-107): resolve a `Call` node to a dotted
name; unresolvable callee shapes give `none`. -/
def call_name (node : Py) : Option String :=
  match node with
  | .call func _ =>
      match func with
      | .name id => some id
      | .attribute value attr =>
          let (parts, base) := attrChain value [attr]
          let parts := match base with
            | .name id => parts ++ [id]
            | _ => parts
          some (String.intercalate "." parts.reverse)
      | _ => none
  | _ => none

/-- `_name_of` (analyzer_agent.py:213-219). -/
def name_of : Py → Option String
  | .name id => some id
  | .attribute value attr =>
      match name_of value with
      | some v => if v == "" then some attr else some (v ++ "." ++ attr)
      | none => some attr
  | _ => none

/-- `_decorator_name` (analyzer_agent.py:222-229). -/
def decorator_name : Py → String
  | .name id => id
  | .attribute value attr => (name_of (.attribute value attr)).getD ""
  | .call func _ => decorator_name func
  | _ => ""

/-- Python `repr` for the constant values modelled here. -/
def pyRepr : Py → Option String
  | .constStr s => some ("\x27" ++ s ++ "\x27")
  | .constInt n => some (toString n)
  | .constBool b => some (cond b "True" "False")
  | .constNone => some "None"
  | _ => none

/-- `_constant_repr` (analyzer_agent.py:258-267). -/
def constant_repr (node : Py) : Option String :=
  match pyRepr node with
  | some r => some r
  | none =>
      match node with
      | .name id => some id
      | .listExpr _ => some "[]"
      | .dictExpr => some "\x7b\x7d"
      | _ => none

/-- `_annotation_str` (analyzer_agent.py:232-241).  The final `ast.dump`
fallback is modelled by an abstract rendering marker; no analyzed shape in the
claims reaches it. -/
def annotation_str (node : Option Py) : Option String :=
  match node with
  | none => none
  | some n =>
      match pyRepr n with
      | some r => some r
      | none =>
          match n with
          | .name id => some id
          | .attribute value attr => name_of (.attribute value attr)
          | _ => some "<ast.dump>"

/-- `ast.get_docstring(node) or ""`: the leading string-constant expression
statement of a body, if any (whitespace cleanup elided — no claim depends on
docstring text). -/
def get_docstring : List Py → String
  | .exprStmt (.constStr s) :: _ => s
  | _ => ""

/-! ### `FunctionAnalyzer` (analyzer_agent.py:19-90)

The mutable visitor attributes become `FAState`.  `visit` dispatches to
`visit_Call` / `visit_Raise` / `visit_Return` / `visit_Try` (shared by
`TryStar`) / `visit_If` / `visit_For` / `visit_While`; every handler, and the
default `generic_visit` used for all other node kinds, recurses into the
children in AST field order. -/

structure FAState where
  calls : List String := []
  raises : List String := []
  has_return : Bool := false
  cx : Complexity := {}
deriving Repr, DecidableEq

/-- Effect of `visit_Call` before recursion (analyzer_agent.py:38-43). -/
def faOnCall (st : FAState) (node : Py) : FAState :=
  match call_name node with
  | some nm => { st with calls := st.calls ++ [nm], cx := classify_call nm st.cx }
  | none => st

/-- Effect of `visit_Raise` before recursion (analyzer_agent.py:45-53). -/
def faOnRaise (st : FAState) (exc : Option Py) : FAState :=
  match exc with
  | none => st
  | some e =>
      match e with
      | .call f a =>
          match call_name (.call f a) with
          | some nm => { st with raises := st.raises ++ [nm] }
          | none => st
      | .name id => { st with raises := st.raises ++ [id] }
      | _ => st

mutual

def faVisit (st : FAState) (n : Py) : FAState :=
  match n with
  | .call func args => faVisitList (faVisit (faOnCall st (.call func args)) func) args
  | .raiseStmt exc => faVisitOpt (faOnRaise st exc) exc
  | .ret value =>
      let st := if value.isSome then { st with has_return := true } else st
      faVisitOpt st value
  | .tryStmt body handlers orelse finalbody =>
      let st := { st with cx := { st.cx with has_try_except := true } }
      faVisitList (faVisitList (faVisitList (faVisitList st body) handlers) orelse) finalbody
  | .tryStar body handlers orelse finalbody =>
      let st := { st with cx := { st.cx with has_try_except := true } }
      faVisitList (faVisitList (faVisitList (faVisitList st body) handlers) orelse) finalbody
  | .ifStmt test body orelse =>
      let st := { st with cx := { st.cx with has_conditionals := true } }
      faVisitList (faVisitList (faVisit st test) body) orelse
  | .forStmt target iter body orelse =>
      let st := { st with cx := { st.cx with has_loops := true } }
      faVisitList (faVisitList (faVisit (faVisit st target) iter) body) orelse
  | .whileStmt test body orelse =>
      let st := { st with cx := { st.cx with has_loops := true } }
      faVisitList (faVisitList (faVisit st test) body) orelse
  | .module body => faVisitList st body
  | .functionDef _ args body decorators _ =>
      faVisitList (faVisitList (faVisit st args) body) decorators
  | .asyncFunctionDef _ args body decorators _ =>
      faVisitList (faVisitList (faVisit st args) body) decorators
  | .classDef _ bases body decorators _ =>
      faVisitList (faVisitList (faVisitList st bases) body) decorators
  | .argumentsNode args defaults => faVisitList (faVisitList st args) defaults
  | .argNode _ annot => faVisitOpt st annot
  | .assign targets value => faVisit (faVisitList st targets) value
  | .exprStmt value => faVisit st value
  | .exceptHandler body => faVisitList st body
  | .importStmt _ => st
  | .importFrom _ _ => st
  | .pass => st
  | .name _ => st
  | .attribute value _ => faVisit st value
  | .constStr _ => st
  | .constInt _ => st
  | .constBool _ => st
  | .constNone => st
  | .listExpr elts => faVisitList st elts
  | .dictExpr => st

def faVisitList (st : FAState) (ns : List Py) : FAState :=
  match ns with
  | [] => st
  | n :: rest => faVisitList (faVisit st n) rest

def faVisitOpt (st : FAState) (n : Option Py) : FAState :=
  match n with
  | none => st
  | some m => faVisit st m

end

/-- The loop `for child in ast.walk(node): fa.visit(child)` of
`ModuleAnalyzer._analyze_function` (analyzer_agent.py:181-183): a fresh
`FunctionAnalyzer` folded over every node yielded breadth-first, each visit
re-traversing the whole subtree of that node. -/
def runFunctionAnalyzer (node : Py) : FAState :=
  node.walk.foldl (fun st child => faVisit st child) {}

/-! ### Metadata records (the dicts built by `ModuleAnalyzer`) -/

structure ArgInfo where
  nm : String
  annot : Option String
  default : Option String
deriving Repr, DecidableEq

structure FunctionInfo where
  nm : String
  args : List ArgInfo
  is_async : Bool
  line : Nat
  decorators : List String
  docstring : String
  calls : List String
  raises : List String
  has_return : Bool
  complexity_indicators : Complexity
deriving Repr, DecidableEq

structure ClassInfo where
  nm : String
  bases : List String
  has_init : Bool
  init_args : List ArgInfo
  class_variables : List String
  methods : List FunctionInfo
  line : Nat
  decorators : List String
  docstring : String
deriving Repr, DecidableEq

/-- `_find_default` applied to each argument while building `args_info`
(analyzer_agent.py:185-194, 244-255): positional defaults are right-aligned,
so argument `i` has a default only when `i` falls in the trailing window the
defaults list covers; `self` is skipped. -/
def buildArgsInfo (args : List Py) (defaults : List Py) : List ArgInfo :=
  let offset := args.length - defaults.length
  (args.enum.filterMap fun (i, a) =>
    match a with
    | .argNode nm annot =>
        if nm == "self" then none
        else
          let default :=
            if defaults.isEmpty then none
            else if i ≥ offset then constant_repr (defaults.getD (i - offset) .dictExpr)
            else none
          some { nm := nm, annot := annotation_str annot, default := default }
    | _ => none)

/-- `ModuleAnalyzer._analyze_function` (analyzer_agent.py:179-207). -/
def analyze_function (node : Py) : FunctionInfo :=
  match node with
  | .functionDef nm args body decorators line =>
      let fa := runFunctionAnalyzer (.functionDef nm args body decorators line)
      let (argList, defaults) := match args with
        | .argumentsNode a d => (a, d)
        | _ => ([], [])
      { nm := nm, args := buildArgsInfo argList defaults, is_async := false,
        line := line, decorators := decorators.map decorator_name,
        docstring := get_docstring body, calls := fa.calls, raises := fa.raises,
        has_return := fa.has_return, complexity_indicators := fa.cx }
  | .asyncFunctionDef nm args body decorators line =>
      let fa := runFunctionAnalyzer (.asyncFunctionDef nm args body decorators line)
      let (argList, defaults) := match args with
        | .argumentsNode a d => (a, d)
        | _ => ([], [])
      { nm := nm, args := buildArgsInfo argList defaults, is_async := true,
        line := line, decorators := decorators.map decorator_name,
        docstring := get_docstring body, calls := fa.calls, raises := fa.raises,
        has_return := fa.has_return, complexity_indicators := fa.cx }
  | _ =>
      { nm := "", args := [], is_async := false, line := 0, decorators := [],
        docstring := "", calls := [], raises := [], has_return := false,
        complexity_indicators := {} }

/-! ### `ModuleAnalyzer` traversal (analyzer_agent.py:113-175)

Handlers exist for `Import`, `ImportFrom`, `FunctionDef` (shared with
`AsyncFunctionDef`) and `ClassDef`; none of them calls `generic_visit`, so the
traversal does not descend into the bodies it has handled.  Every other node
kind is traversed generically. -/

structure MAState where
  functions : List FunctionInfo := []
  classes : List ClassInfo := []
  imports : List String := []
  currentClass : Option String := none
deriving Repr, DecidableEq

/-- The body of `visit_ClassDef` (analyzer_agent.py:144-175): one pass over
`ast.iter_child_nodes(node)` collecting methods (noting `__init__`) and
class-level assignment targets, then the class record is appended. -/
def maOnClassDef (st : MAState) (nm : String) (bases : List Py) (body : List Py)
    (decorators : List Py) (line : Nat) : MAState :=
  let basesNames := bases.filterMap name_of
  let step := fun (acc : Bool × List ArgInfo × List String × List FunctionInfo) (item : Py) =>
    let (has_init, init_args, class_variables, methods) := acc
    match item with
    | .functionDef mnm margs mbody mdec mline =>
        let info := analyze_function (.functionDef mnm margs mbody mdec mline)
        if mnm == "__init__" then (true, info.args, class_variables, methods ++ [info])
        else (has_init, init_args, class_variables, methods ++ [info])
    | .asyncFunctionDef mnm margs mbody mdec mline =>
        let info := analyze_function (.asyncFunctionDef mnm margs mbody mdec mline)
        if mnm == "__init__" then (true, info.args, class_variables, methods ++ [info])
        else (has_init, init_args, class_variables, methods ++ [info])
    | .assign targets _ =>
        let vars := targets.filterMap fun t =>
          match t with
          | .name id => some id
          | _ => none
        (has_init, init_args, class_variables ++ vars, methods)
    | _ => acc
  let items := bases ++ body ++ decorators
  let (has_init, init_args, class_variables, methods) :=
    items.foldl step (false, [], [], [])
  { st with classes := st.classes ++ [{
      nm := nm, bases := basesNames, has_init := has_init, init_args := init_args,
      class_variables := class_variables, methods := methods, line := line,
      decorators := decorators.map decorator_name, docstring := get_docstring body }] }

mutual

def maVisit (st : MAState) (n : Py) : MAState :=
  match n with
  | .importStmt names => { st with imports := st.imports ++ names }
  | .importFrom mod names =>
      let m := mod.getD ""
      { st with imports := st.imports ++ names.map (fun a => m ++ "." ++ a) }
  | .functionDef nm args body decorators line =>
      if st.currentClass.isNone then
        { st with functions :=
            st.functions ++ [analyze_function (.functionDef nm args body decorators line)] }
      else st
  | .asyncFunctionDef nm args body decorators line =>
      if st.currentClass.isNone then
        { st with functions :=
            st.functions ++ [analyze_function (.asyncFunctionDef nm args body decorators line)] }
      else st
  | .classDef nm bases body decorators line => maOnClassDef st nm bases body decorators line
  | .module body => maVisitList st body
  | .argumentsNode args defaults => maVisitList (maVisitList st args) defaults
  | .argNode _ annot => maVisitOpt st annot
  | .assign targets value => maVisit (maVisitList st targets) value
  | .exprStmt value => maVisit st value
  | .ret value => maVisitOpt st value
  | .raiseStmt exc => maVisitOpt st exc
  | .tryStmt body handlers orelse finalbody =>
      maVisitList (maVisitList (maVisitList (maVisitList st body) handlers) orelse) finalbody
  | .tryStar body handlers orelse finalbody =>
      maVisitList (maVisitList (maVisitList (maVisitList st body) handlers) orelse) finalbody
  | .exceptHandler body => maVisitList st body
  | .ifStmt test body orelse => maVisitList (maVisitList (maVisit st test) body) orelse
  | .forStmt target iter body orelse =>
      maVisitList (maVisitList (maVisit (maVisit st target) iter) body) orelse
  | .whileStmt test body orelse => maVisitList (maVisitList (maVisit st test) body) orelse
  | .pass => st
  | .name _ => st
  | .attribute value _ => maVisit st value
  | .call func args => maVisitList (maVisit st func) args
  | .constStr _ => st
  | .constInt _ => st
  | .constBool _ => st
  | .constNone => st
  | .listExpr elts => maVisitList st elts
  | .dictExpr => st

def maVisitList (st : MAState) (ns : List Py) : MAState :=
  match ns with
  | [] => st
  | n :: rest => maVisitList (maVisit st n) rest

def maVisitOpt (st : MAState) (n : Option Py) : MAState :=
  match n with
  | none => st
  | some m => maVisit st m

end

/-! ### Public analyzer API (analyzer_agent.py:273-328) -/

/-- The result dict of `analyze_file`.  On the parse-error path the source
drops the `filepath` key and stores the raw path as `module`. -/
structure FileAnalysis where
  module : String
  filepath : Option String
  functions : List FunctionInfo
  classes : List ClassInfo
  imports : List String
  error : Option String
deriving Repr, DecidableEq

/-- `analyze_file` (analyzer_agent.py:273-301).  Reading and parsing the file
is done by the Python parser; the embedding receives the parse outcome:
`.ok tree` for a parsed module, `.error e` with `e` the formatted failure
description (`"SyntaxError: ..."` or `str(exc)`) otherwise. -/
def analyze_file (filepath : String) (parsed : Except String Py) : FileAnalysis :=
  match parsed with
  | .error e =>
      { module := filepath, filepath := none, functions := [], classes := [],
        imports := [], error := some e }
  | .ok tree =>
      let visitor := maVisit {} tree
      { module := pathStem filepath, filepath := some filepath,
        functions := visitor.functions, classes := visitor.classes,
        imports := visitor.imports, error := none }

/-- The accumulation loop of `analyze_directory` (analyzer_agent.py:312-328):
append one record per candidate file until `max_files` is reached.  The
directory walk itself (skip-dirs pruning, sorting, the `.py` filter) only
determines the candidate list, which the embedding receives already flattened
in walk order. -/
def analyzeDirGo (maxFiles : Nat) : List (String × Except String Py) →
    List FileAnalysis → List FileAnalysis
  | [], acc => acc
  | (p, r) :: rest, acc =>
      if acc.length ≥ maxFiles then acc
      else analyzeDirGo maxFiles rest (acc ++ [analyze_file p r])

/-- `analyze_directory` (analyzer_agent.py:304-328) over the flattened
candidate list. -/
def analyze_directory (files : List (String × Except String Py))
    (maxFiles : Nat := 50) : List FileAnalysis :=
  analyzeDirGo maxFiles files []

/-! ### Argument heuristics (generator_agent.py:26-67)

Python truthiness in the guard on the declared default means the default is
reused unless it is absent, the empty string, the text None, or the
two-character text of an empty quoted string literal (either quote kind). -/

/-- The keyword-group chain of `_infer_test_value` (generator_agent.py:31-54),
operating on the already-lowercased name. -/
def inferKeywordValue (nm : String) : String :=
  if strContains nm "path" || strContains nm "file" || strContains nm "dir" ||
       strContains nm "folder" then "\"/tmp/test_file.txt\""
    else if strContains nm "url" || strContains nm "uri" || strContains nm "endpoint" then
      "\"https://example.com/test\""
    else if strContains nm "name" || strContains nm "title" || strContains nm "label" then
      "\"test_value\""
    else if strContains nm "count" || strContains nm "num" || strContains nm "size" ||
            strContains nm "limit" || strContains nm "max" || strContains nm "min" then "10"
    else if strContains nm "flag" || strContains nm "enabled" || strContains nm "active" ||
            strContains nm "verbose" then "True"
    else if strContains nm "data" || strContains nm "config" || strContains nm "options" ||
            strContains nm "settings" then "\x7b\"key\": \"value\"\x7d"
    else if nm == "branch" then "\"main\""
    else if strContains nm "timeout" || strContains nm "delay" then "30"
    else if strContains nm "output" || strContains nm "result" || strContains nm "text" ||
            strContains nm "content" || strContains nm "body" then "\"test output content\""
    else if strContains nm "command" || strContains nm "cmd" then "\"echo hello\""
  else if strContains nm "token" || strContains nm "key" || strContains nm "secret" then
    "\"test_token_123\""
  else "\"test_input\""

/-- `_infer_test_value` (generator_agent.py:26-54): a usable declared default
is reused verbatim, otherwise the lowercased name goes through the keyword
chain. -/
def infer_test_value (param_name : String) (default : Option String := none) : String :=
  if default.getD "" != "" && default.getD "" != "None" && default.getD "" != "\x27\x27" &&
      default.getD "" != "\"\"" then default.getD ""
  else inferKeywordValue (pyLower param_name)

/-- The keyword-group chain of `_infer_empty_value` (generator_agent.py:57-67). -/
def emptyKeywordValue (nm : String) : String :=
  if strContains nm "count" || strContains nm "num" || strContains nm "size" ||
     strContains nm "limit" || strContains nm "max" || strContains nm "min" ||
     strContains nm "timeout" || strContains nm "delay" then "0"
  else if strContains nm "flag" || strContains nm "enabled" || strContains nm "active" then
    "False"
  else if strContains nm "data" || strContains nm "config" || strContains nm "options" then
    "\x7b\x7d"
  else "\"\""

/-- `_infer_empty_value` (generator_agent.py:57-67). -/
def infer_empty_value (param_name : String) : String :=
  emptyKeywordValue (pyLower param_name)

/-! ### Mock strategy resolver (generator_agent.py:73-152) -/

structure MockStrategy where
  target : String
  decorator : String
  setup_lines : List String
  arg_name : Option String
deriving Repr, DecidableEq

/-- The file-I/O strategy (generator_agent.py:91-96). -/
def fileStrategy : MockStrategy :=
  { target := "builtins.open",
    decorator := "@patch(\"builtins.open\", new_callable=mock_open, read_data=\"test content\")",
    setup_lines := [], arg_name := some "mock_file" }

/-- The subprocess strategy (generator_agent.py:99-106). -/
def subStrategy (module_name : String) : MockStrategy :=
  { target := module_name ++ ".subprocess.run",
    decorator := "@patch(\"" ++ module_name ++ ".subprocess.run\")",
    setup_lines :=
      ["mock_run.return_value = MagicMock(returncode=0, stdout=\"success\", stderr=\"\")"],
    arg_name := some "mock_run" }

/-- The httpx-family network strategy (generator_agent.py:117-129). -/
def httpxStrategy (module_name : String) : MockStrategy :=
  { target := module_name ++ ".httpx.AsyncClient",
    decorator := "@patch(\"" ++ module_name ++ ".httpx.AsyncClient\")",
    setup_lines :=
      ["mock_client_instance = AsyncMock()",
       "mock_response = MagicMock(status_code=200, text=\x27ok\x27)",
       "mock_response.json.return_value = \x7b\x7d",
       "mock_client_instance.post.return_value = mock_response",
       "mock_client_instance.get.return_value = mock_response",
       "mock_client.__aenter__.return_value = mock_client_instance"],
    arg_name := some "mock_client" }

/-- The requests-family network strategy (generator_agent.py:131-139). -/
def requestsStrategy (module_name : String) : MockStrategy :=
  { target := module_name ++ ".requests",
    decorator := "@patch(\"" ++ module_name ++ ".requests\")",
    setup_lines :=
      ["mock_req.get.return_value = MagicMock(status_code=200, text=\"ok\")",
       "mock_req.post.return_value = MagicMock(status_code=201, text=\"created\")"],
    arg_name := some "mock_req" }

/-- The OS/path strategy (generator_agent.py:143-149). -/
def osStrategy (module_name : String) : MockStrategy :=
  { target := module_name ++ ".os.path.exists",
    decorator := "@patch(\"" ++ module_name ++ ".os.path.exists\", return_value=True)",
    setup_lines := [], arg_name := some "mock_exists" }

/-- `resolve_mock_strategies` (generator_agent.py:84-152).  The four appends run
in source order; the network branch picks `requests` when any recorded call
contains that substring, else defaulting to `httpx`; the OS branch appends (at
most once, because of the `break`) only when some call contains
`"os.path.exists"` or `"Path"`. -/
def resolve_mock_strategies (fi : FunctionInfo) (module_name : String) : List MockStrategy :=
  let cx := fi.complexity_indicators
  let calls := fi.calls
  let strategies : List MockStrategy := []
  let strategies :=
    if cx.uses_file_io || calls.contains "open" then strategies ++ [fileStrategy]
    else strategies
  let strategies :=
    if cx.uses_subprocess || calls.any (fun c => strContains c "subprocess") then
      strategies ++ [subStrategy module_name]
    else strategies
  let strategies :=
    if cx.uses_http then
      let http_lib := if calls.any (fun c => strContains c "requests") then "requests" else "httpx"
      if http_lib == "httpx" then strategies ++ [httpxStrategy module_name]
      else strategies ++ [requestsStrategy module_name]
    else strategies
  let strategies :=
    if cx.uses_os then
      if calls.any (fun c => strContains c "os.path.exists" || strContains c "Path") then
        strategies ++ [osStrategy module_name]
      else strategies
    else strategies
  strategies

/-! ### Test template engine (generator_agent.py:158-426)

Each synthesized case is one string in the `tests` list that
`_generate_function_tests` / `_generate_class_tests` accumulate before joining;
`generate_function_test_cases` / `generate_class_test_cases` expose exactly
that list.  Template text is reproduced verbatim (triple quotes included),
with literal braces and single quotes written via escapes. -/

/-- `_build_function_call` (generator_agent.py:158-168). -/
def build_function_call (fi : FunctionInfo) : String :=
  let arg_strs := fi.args.map fun a => a.nm ++ "=" ++ infer_test_value a.nm a.default
  let preamble := if fi.is_async then "await " else ""
  preamble ++ fi.nm ++ "(" ++ String.intercalate ", " arg_strs ++ ")"

/-- Python `"Test" + "".join(w.capitalize() for w in name.split("_") if w)`. -/
def testClassName (nm : String) : String :=
  "Test" ++ String.join (((strSplitChar '_' nm).filter (fun w => w != "")).map pyCapitalize)

/-- The `tests` list accumulated by `_generate_function_tests`
(generator_agent.py:171-332), one string per synthesized case, in source
order: success, empty-input, parametrized, error-handling, subprocess timeout
and failure, file-not-found, HTTP error. -/
def generate_function_test_cases (fi : FunctionInfo) (module_name : String) : List String :=
  let nm := fi.nm
  let strategies := resolve_mock_strategies fi module_name
  let is_async := fi.is_async
  let cx := fi.complexity_indicators
  let args := fi.args
  let mock_decorators := String.intercalate "\n    " ((strategies.reverse).map MockStrategy.decorator)
  let mock_params := String.intercalate ", "
    ((strategies.filterMap MockStrategy.arg_name).filter (fun a => a != ""))
  let setup := String.intercalate "\n        " ((strategies.map MockStrategy.setup_lines).flatten)
  let call_expr := build_function_call fi
  let mock_decorators := if mock_decorators != "" then "\n    " ++ mock_decorators else mock_decorators
  let self_params := if mock_params != "" then "self, " ++ mock_params else "self"
  let async_def := if is_async then "async " else ""
  let pytest_mark := if is_async then "\n    @pytest.mark.asyncio" else ""
  let success_test :=
    "\n    " ++ mock_decorators ++ pytest_mark ++
    "\n    " ++ async_def ++ "def test_" ++ nm ++ "_success(" ++ self_params ++ "):" ++
    "\n        \"\"\"Test successful execution of " ++ nm ++ ".\"\"\"" ++
    "\n        " ++ setup ++
    "\n        result = " ++ call_expr ++
    "\n        assert result is not None"
  let success_test := strategies.foldl (fun t s =>
    if (s.arg_name.getD "" != "") && strContains s.target "subprocess" then
      t ++ "\n        " ++ s.arg_name.getD "" ++ ".assert_called()"
    else t) success_test
  let tests := [success_test]
  let tests := tests ++
    (match args with
     | [] => []
     | first_arg :: _ =>
        let none_call_args := args.map fun a =>
          if a.nm == first_arg.nm then a.nm ++ "=\"\""
          else a.nm ++ "=" ++ infer_test_value a.nm a.default
        let none_call := (if is_async then "await " else "") ++ nm ++ "(" ++
          String.intercalate ", " none_call_args ++ ")"
        ["\n    " ++ mock_decorators ++ pytest_mark ++
         "\n    " ++ async_def ++ "def test_" ++ nm ++ "_empty_input(" ++ self_params ++ "):" ++
         "\n        \"\"\"Test " ++ nm ++ " handles empty/missing input gracefully.\"\"\"" ++
         "\n        " ++ setup ++
         "\n        result = " ++ none_call ++
         "\n        assert result is not None" ++
         "\n        # Empty input should return an error message or handle gracefully" ++
         "\n        if isinstance(result, str):" ++
         "\n            assert \"error\" in result.lower() or len(result) > 0"])
  let tests := tests ++
    (match args with
     | [] => []
     | first :: _ =>
        let good_val := infer_test_value first.nm first.default
        let empty_val := infer_empty_value first.nm
        ["\n    @pytest.mark.parametrize(\"" ++ first.nm ++ "_val\", [" ++
         "\n        " ++ good_val ++ "," ++
         "\n        " ++ empty_val ++ "," ++
         "\n        \"   \"," ++
         "\n    ])" ++ pytest_mark ++
         "\n    " ++ async_def ++ "def test_" ++ nm ++ "_various_inputs(self, " ++ first.nm ++ "_val):" ++
         "\n        \"\"\"Test " ++ nm ++ " with various input values.\"\"\"" ++
         "\n        result = " ++ (if is_async then "await " else "") ++ nm ++ "(" ++
           first.nm ++ "=" ++ first.nm ++ "_val)" ++
         "\n        # Function should handle all inputs without raising" ++
         "\n        assert result is not None"])
  let tests := tests ++
    (if cx.has_try_except && !strategies.isEmpty then
      match strategies with
      | [] => []
      | first_strategy :: _ =>
        let error_mock_arg :=
          if first_strategy.arg_name.getD "" != "" then first_strategy.arg_name.getD ""
          else "mock_dep"
        ["\n    " ++ first_strategy.decorator ++ pytest_mark ++
         "\n    " ++ async_def ++ "def test_" ++ nm ++ "_error_handling(self, " ++ error_mock_arg ++ "):" ++
         "\n        \"\"\"Test " ++ nm ++ " handles errors gracefully.\"\"\"" ++
         "\n        " ++ error_mock_arg ++ ".side_effect = Exception(\"Test error\")" ++
         "\n        result = " ++ call_expr ++
         "\n        assert result is not None" ++
         "\n        if isinstance(result, str):" ++
         "\n            assert \"error\" in result.lower()"]
    else [])
  let tests := tests ++
    (if cx.uses_subprocess then
      match strategies.find? (fun s => strContains s.target "subprocess") with
      | none => []
      | some sub_strategy =>
        let an := sub_strategy.arg_name.getD "None"
        ["\n    " ++ sub_strategy.decorator ++ pytest_mark ++
         "\n    " ++ async_def ++ "def test_" ++ nm ++ "_subprocess_timeout(self, " ++ an ++ "):" ++
         "\n        \"\"\"Test " ++ nm ++ " handles subprocess timeout.\"\"\"" ++
         "\n        import subprocess as _sp" ++
         "\n        " ++ an ++ ".side_effect = _sp.TimeoutExpired(cmd=\"test\", timeout=5)" ++
         "\n        result = " ++ call_expr ++
         "\n        assert result is not None" ++
         "\n        if isinstance(result, str):" ++
         "\n            assert \"timeout\" in result.lower() or \"error\" in result.lower()",
         "\n    " ++ sub_strategy.decorator ++ pytest_mark ++
         "\n    " ++ async_def ++ "def test_" ++ nm ++ "_subprocess_failure(self, " ++ an ++ "):" ++
         "\n        \"\"\"Test " ++ nm ++ " handles non-zero exit code.\"\"\"" ++
         "\n        " ++ an ++ ".return_value = MagicMock(" ++
         "\n            returncode=1, stdout=\"\", stderr=\"command failed\"" ++
         "\n        )" ++
         "\n        result = " ++ call_expr ++
         "\n        assert result is not None"]
    else [])
  let tests := tests ++
    (if cx.uses_file_io then
      match strategies.find? (fun s => strContains s.target "open") with
      | none => []
      | some _ =>
        ["\n    @patch(\"builtins.open\", side_effect=FileNotFoundError(\"not found\"))" ++ pytest_mark ++
         "\n    " ++ async_def ++ "def test_" ++ nm ++ "_file_not_found(self, mock_file):" ++
         "\n        \"\"\"Test " ++ nm ++ " handles missing file.\"\"\"" ++
         "\n        result = " ++ call_expr ++
         "\n        assert result is not None" ++
         "\n        if isinstance(result, str):" ++
         "\n            assert \"error\" in result.lower() or \"not found\" in result.lower()"]
    else [])
  let tests := tests ++
    (if cx.uses_http then
      match strategies.find? (fun s => strContains (pyLower s.target) "http") with
      | none => []
      | some http_strategy =>
        let an := http_strategy.arg_name.getD "None"
        ["\n    " ++ http_strategy.decorator ++ pytest_mark ++
         "\n    " ++ async_def ++ "def test_" ++ nm ++ "_http_error(self, " ++ an ++ "):" ++
         "\n        \"\"\"Test " ++ nm ++ " handles HTTP errors.\"\"\"" ++
         "\n        " ++ an ++ ".side_effect = Exception(\"Connection refused\")" ++
         "\n        result = " ++ call_expr ++
         "\n        assert result is not None"]
    else [])
  tests

/-- `_generate_function_tests` (generator_agent.py:171-340): the assembled
test class for one standalone function. -/
def generate_function_tests (fi : FunctionInfo) (module_name : String) : String :=
  let body := String.intercalate "\n" (generate_function_test_cases fi module_name)
  "\nclass " ++ testClassName fi.nm ++ ":" ++
  "\n    \"\"\"Tests for " ++ fi.nm ++ "().\"\"\"" ++
  "\n" ++ body ++ "\n"

/-- The `tests` list accumulated by `_generate_class_tests`
(generator_agent.py:343-421): constructor fixture, instantiation smoke test,
then per public non-constructor method a success case and a callable check. -/
def generate_class_test_cases (ci : ClassInfo) (module_name : String) : List String :=
  let cls_name := ci.nm
  let fixture_args := ci.init_args.map fun a => a.nm ++ "=" ++ infer_test_value a.nm a.default
  let constructor_call := cls_name ++ "(" ++ String.intercalate ", " fixture_args ++ ")"
  let fixture :=
    "\n    @pytest.fixture" ++
    "\n    def instance(self):" ++
    "\n        \"\"\"Create a " ++ cls_name ++ " instance for testing.\"\"\"" ++
    "\n        return " ++ constructor_call
  let smoke :=
    "\n    def test_instantiation(self, instance):" ++
    "\n        \"\"\"Test that " ++ cls_name ++ " can be instantiated.\"\"\"" ++
    "\n        assert instance is not None" ++
    "\n        assert isinstance(instance, " ++ cls_name ++ ")"
  let methodTests := ci.methods.foldl (fun acc method =>
    let mname := method.nm
    if (strStarts mname "_" && mname != "__init__") || mname == "__init__" then acc
    else
      let is_async := method.is_async
      let strategies := resolve_mock_strategies method module_name
      let call_args := method.args.map fun a => a.nm ++ "=" ++ infer_test_value a.nm a.default
      let call_str := (if is_async then "await " else "") ++ "instance." ++ mname ++ "(" ++
        String.intercalate ", " call_args ++ ")"
      let mock_decorators := String.intercalate "\n    "
        ((strategies.reverse).map MockStrategy.decorator)
      let mock_params := String.intercalate ", "
        ((strategies.filterMap MockStrategy.arg_name).filter (fun a => a != ""))
      let setup := String.intercalate "\n        " ((strategies.map MockStrategy.setup_lines).flatten)
      let mock_decorators :=
        if mock_decorators != "" then "\n    " ++ mock_decorators else mock_decorators
      let self_params :=
        if mock_params != "" then "self, instance, " ++ mock_params else "self, instance"
      let async_def := if is_async then "async " else ""
      let pytest_mark := if is_async then "\n    @pytest.mark.asyncio" else ""
      acc ++
      ["\n    " ++ mock_decorators ++ pytest_mark ++
       "\n    " ++ async_def ++ "def test_" ++ mname ++ "_success(" ++ self_params ++ "):" ++
       "\n        \"\"\"Test " ++ mname ++ " method.\"\"\"" ++
       "\n        " ++ setup ++
       "\n        result = " ++ call_str ++
       "\n        assert result is not None",
       "\n    def test_" ++ mname ++ "_is_callable(self, instance):" ++
       "\n        \"\"\"Verify " ++ mname ++ " is a callable method.\"\"\"" ++
       "\n        assert callable(getattr(instance, \"" ++ mname ++ "\", None))"]) []
  fixture :: smoke :: methodTests

/-- `_generate_class_tests` (generator_agent.py:343-426). -/
def generate_class_tests (ci : ClassInfo) (module_name : String) : String :=
  let body := String.intercalate "\n" (generate_class_test_cases ci module_name)
  "\nclass Test" ++ ci.nm ++ ":" ++
  "\n    \"\"\"Tests for " ++ ci.nm ++ " class.\"\"\"" ++
  "\n" ++ body ++ "\n"

/-! ### File writer (generator_agent.py:432-543)

`generate_test_file` computes the full module text and writes it under the
output directory; the embedding returns `some (path, content)` for a performed
write and `none` for the "nothing to test" early return. -/

/-- The four import flags accumulated by the loops at
generator_agent.py:449-474. -/
structure MockNeeds where
  patch : Bool := false
  magicmock : Bool := false
  mock_open : Bool := false
  async_mock : Bool := false
deriving Repr, DecidableEq

/-- One iteration of the per-function flag loop (generator_agent.py:455-463
and, applied to each method, 465-474). -/
def needsStep (module_name : String) (needs : MockNeeds) (fi : FunctionInfo) : MockNeeds :=
  let strats := resolve_mock_strategies fi module_name
  let needs := if !strats.isEmpty then { needs with patch := true, magicmock := true } else needs
  let needs := if strats.any (fun s => strContains s.target "open") then
    { needs with mock_open := true } else needs
  if fi.is_async then { needs with async_mock := true } else needs

/-- Both flag loops: all standalone functions, then every method of every
class (generator_agent.py:449-474). -/
def computeNeeds (functions : List FunctionInfo) (classes : List ClassInfo)
    (module_name : String) : MockNeeds :=
  let needs := functions.foldl (needsStep module_name) {}
  classes.foldl (fun n cls => cls.methods.foldl (needsStep module_name) n) needs

/-- The `mock_imports` list (generator_agent.py:477-488): empty, or one
`from unittest.mock import ...` line naming the flagged helpers in fixed
order. -/
def mock_import_lines (functions : List FunctionInfo) (classes : List ClassInfo)
    (module_name : String) : List String :=
  let needs := computeNeeds functions classes module_name
  if needs.patch || needs.magicmock || needs.mock_open || needs.async_mock then
    let parts : List String :=
      (if needs.patch then ["patch"] else []) ++
      (if needs.magicmock then ["MagicMock"] else []) ++
      (if needs.mock_open then ["mock_open"] else []) ++
      (if needs.async_mock then ["AsyncMock"] else [])
    ["from unittest.mock import " ++ String.intercalate ", " parts]
  else []

/-- `os.path.join` for the relative-name case used here. -/
def osJoin (a b : String) : String :=
  if a == "" then b else if strEnds a "/" then a ++ b else a ++ "/" ++ b

/-- `generate_test_file` (generator_agent.py:432-543).  Returns the written
path together with the rendered module text, or `none` when the analysis
contributes no functions and no classes (in the source, the `None` return
happens before any directory creation or file write). -/
def generate_test_file (analysis : FileAnalysis) (output_dir : String) :
    Option (String × String) :=
  let functions := analysis.functions
  let classes := analysis.classes
  let module_name := analysis.module
  if functions.isEmpty && classes.isEmpty then none
  else
    let mock_imports := mock_import_lines functions classes module_name
    let import_names := functions.map FunctionInfo.nm ++ classes.map ClassInfo.nm
    let header :=
      "\"\"\"Generated unit tests for " ++ module_name ++ ".py" ++
      "\n\nAuto-generated by QA Council Test Generator Agent." ++
      "\nTests use unittest.mock for isolation and pytest for execution." ++
      "\n\"\"\"" ++
      "\nimport pytest" ++
      "\n" ++ String.intercalate "\n" mock_imports ++
      "\nimport sys" ++
      "\nfrom pathlib import Path" ++
      "\n\n# Ensure source is importable" ++
      "\nsys.path.insert(0, str(Path(__file__).parent.parent.parent))" ++
      "\n\n"
    let header :=
      if !import_names.isEmpty then
        header ++ "try:" ++
        "\n    from " ++ module_name ++ " import " ++ String.intercalate ", " import_names ++
        "\nexcept ImportError:" ++
        "\n    # Fallback: module may need dependencies" ++
        "\n    " ++ String.intercalate ", " (import_names.map (fun n => n ++ " = None")) ++
        "\n\n"
      else header
    let body_parts :=
      functions.map (fun fn => generate_function_tests fn module_name) ++
      classes.map (fun cls => generate_class_tests cls module_name)
    let content := header ++ String.intercalate "\n" body_parts
    let test_filepath := osJoin output_dir ("test_" ++ module_name ++ ".py")
    some (test_filepath, content)

/-! ### Target selection (orchestrator_agent.py:21-88) -/

def EXCLUDE_PATTERNS : List String :=
  ["__init__", "conftest", "setup", "manage", "wsgi", "asgi",
   "alembic", "migration", "version", "celeryconfig"]

/-- `EXCLUDE_PREFIXES` in the source. -/
def EXCLUDE_NAME_STARTS : List String := ["test_", "tests_"]

def EXCLUDE_DIRS : List String := ["migrations", "alembic", "versions", "__pycache__"]

/-- The three pattern guards of `select_test_targets`
(orchestrator_agent.py:53-61): module name in the exclusion set, module name
starting with a test marker, or any path component in the excluded-directory
set (after backslash normalisation). -/
def excludedFile (data : FileAnalysis) : Bool :=
  let module := data.module
  let filepath := (data.filepath.getD "")
  EXCLUDE_PATTERNS.contains (pyLower module) ||
  EXCLUDE_NAME_STARTS.any (fun p => strStarts (pyLower module) p) ||
  (strSplitChar '/' (backslashToSlash filepath)).any (fun p => EXCLUDE_DIRS.contains p)

/-- The score of one file (orchestrator_agent.py:69-82): 2 per function, 3 per
class, 1 per true complexity indicator over functions and one half per true
indicator over class methods. -/
def fileScore (data : FileAnalysis) : Rat :=
  let base : Rat := (data.functions.length * 2 : Nat) + (data.classes.length * 3 : Nat)
  let fnBonus : Rat :=
    ((data.functions.map (fun fn => fn.complexity_indicators.countTrue)).sum : Nat)
  let methodCount : Nat :=
    ((data.classes.map (fun cls =>
      (cls.methods.map (fun m => m.complexity_indicators.countTrue)).sum)).sum)
  base + fnBonus + (methodCount : Rat) / 2

/-- One pass of the scoring loop body (orchestrator_agent.py:46-84): the
sequence of `continue` guards, then the `(score, data)` pair. -/
def scoreEntry (data : FileAnalysis) : Option (Rat × FileAnalysis) :=
  if data.error.isSome then none
  else if excludedFile data then none
  else if data.functions.isEmpty && data.classes.isEmpty then none
  else some (fileScore data, data)

/-- Insert into a list already sorted by descending score, after every element
with a score at least as large (this is the unique stable position). -/
def insertDesc (x : Rat × FileAnalysis) : List (Rat × FileAnalysis) → List (Rat × FileAnalysis)
  | [] => [x]
  | y :: ys => if x.1 ≤ y.1 then y :: insertDesc x ys else x :: y :: ys

/-- `scored.sort(key=lambda x: x[0], reverse=True)` — a stable descending sort
by score.  CPython guarantees stability (ties keep list order), and the stable
descending order is unique, so the insertion sort below is extensionally the
same function. -/
def sortScoredDesc (l : List (Rat × FileAnalysis)) : List (Rat × FileAnalysis) :=
  l.foldl (fun acc x => insertDesc x acc) []

/-- `select_test_targets` (orchestrator_agent.py:29-88): accumulate the
`(score, data)` pairs of the surviving files, sort stably by descending
score, truncate to `max_targets`, and keep the data components. -/
def select_test_targets (analyses : List FileAnalysis) (max_targets : Nat := 10) :
    List FileAnalysis :=
  ((sortScoredDesc (analyses.filterMap scoreEntry)).take max_targets).map Prod.snd

/-! ### Statement-level helpers and concrete sample inputs -/

/-- The five strategy constructors carry pairwise distinct bound parameter
names, which therefore identify the kind of a strategy in a resolved list. -/
def isFileStrat (s : MockStrategy) : Bool := s.arg_name == some "mock_file"

def isSubStrat (s : MockStrategy) : Bool := s.arg_name == some "mock_run"

def isNetStrat (s : MockStrategy) : Bool :=
  s.arg_name == some "mock_client" || s.arg_name == some "mock_req"

def isOsStrat (s : MockStrategy) : Bool := s.arg_name == some "mock_exists"

/-- The condition under which the OS-access branch of
`resolve_mock_strategies` actually appends a strategy. -/
def osStrategyTrigger (calls : List String) : Bool :=
  calls.any (fun c => strContains c "os.path.exists" || strContains c "Path")

/-- The conjunction of the `continue` guards of `select_test_targets`: a file
survives them iff it has no error, matches no exclusion pattern, and has at
least one function or class. -/
def eligibleFile (data : FileAnalysis) : Bool :=
  !data.error.isSome && !excludedFile data && !(data.functions.isEmpty && data.classes.isEmpty)

mutual

/-- Number of syntactic call expressions in a tree (to state that a body holds
exactly one call). -/
def Py.callNodeCount : Py → Nat
  | .module body => Py.callNodeCountList body
  | .functionDef _ args body decorators _ =>
      Py.callNodeCount args + Py.callNodeCountList body + Py.callNodeCountList decorators
  | .asyncFunctionDef _ args body decorators _ =>
      Py.callNodeCount args + Py.callNodeCountList body + Py.callNodeCountList decorators
  | .classDef _ bases body decorators _ =>
      Py.callNodeCountList bases + Py.callNodeCountList body + Py.callNodeCountList decorators
  | .argumentsNode args defaults => Py.callNodeCountList args + Py.callNodeCountList defaults
  | .argNode _ annot => Py.callNodeCountOpt annot
  | .assign targets value => Py.callNodeCountList targets + Py.callNodeCount value
  | .exprStmt value => Py.callNodeCount value
  | .ret value => Py.callNodeCountOpt value
  | .raiseStmt exc => Py.callNodeCountOpt exc
  | .tryStmt body handlers orelse finalbody =>
      Py.callNodeCountList body + Py.callNodeCountList handlers +
        Py.callNodeCountList orelse + Py.callNodeCountList finalbody
  | .tryStar body handlers orelse finalbody =>
      Py.callNodeCountList body + Py.callNodeCountList handlers +
        Py.callNodeCountList orelse + Py.callNodeCountList finalbody
  | .exceptHandler body => Py.callNodeCountList body
  | .ifStmt test body orelse =>
      Py.callNodeCount test + Py.callNodeCountList body + Py.callNodeCountList orelse
  | .forStmt target iter body orelse =>
      Py.callNodeCount target + Py.callNodeCount iter +
        Py.callNodeCountList body + Py.callNodeCountList orelse
  | .whileStmt test body orelse =>
      Py.callNodeCount test + Py.callNodeCountList body + Py.callNodeCountList orelse
  | .importStmt _ => 0
  | .importFrom _ _ => 0
  | .pass => 0
  | .name _ => 0
  | .attribute value _ => Py.callNodeCount value
  | .call func args => 1 + Py.callNodeCount func + Py.callNodeCountList args
  | .constStr _ => 0
  | .constInt _ => 0
  | .constBool _ => 0
  | .constNone => 0
  | .listExpr elts => Py.callNodeCountList elts
  | .dictExpr => 0

def Py.callNodeCountList : List Py → Nat
  | [] => 0
  | n :: rest => Py.callNodeCount n + Py.callNodeCountList rest

def Py.callNodeCountOpt : Option Py → Nat
  | none => 0
  | some n => Py.callNodeCount n

end

/-- `def f(): return foo()` — a body holding exactly one call expression. -/
def fooFn : Py :=
  .functionDef "f" (.argumentsNode [] []) [.ret (some (.call (.name "foo") []))] [] 1

/-- `def current(): os.getcwd()` — the OS indicator fires (the lowered name
holds the substring with the dot), but no recorded call holds
`os.path.exists` or `Path`. -/
def osFn : Py :=
  .functionDef "current" (.argumentsNode [] [])
    [.exprStmt (.call (.attribute (.name "os") "getcwd") [])] [] 1

/-- `def touch(): Path("/tmp/x")` — a bare call to the `Path` constructor. -/
def barePathFn : Py :=
  .functionDef "touch" (.argumentsNode [] [])
    [.exprStmt (.call (.name "Path") [.constStr "/tmp/x"])] [] 1

/-- `def fetch_data(url, timeout=30): return httpx.get(url)`. -/
def fetchFnHttpx : Py :=
  .functionDef "fetch_data"
    (.argumentsNode [.argNode "url" none, .argNode "timeout" none] [.constInt 30])
    [.ret (some (.call (.attribute (.name "httpx") "get") [.name "url"]))] [] 1

/-- `def fetch_data(url, timeout=30): return requests.get(url)`. -/
def fetchFnRequests : Py :=
  .functionDef "fetch_data"
    (.argumentsNode [.argNode "url" none, .argNode "timeout" none] [.constInt 30])
    [.ret (some (.call (.attribute (.name "requests") "get") [.name "url"]))] [] 1

/-- `def read_cfg(path): return open(path)` — file I/O is the only side
effect. -/
def readCfgFn : Py :=
  .functionDef "read_cfg" (.argumentsNode [.argNode "path" none] [])
    [.ret (some (.call (.name "open") [.name "path"]))] [] 1

/-- The analysis of a module whose single definition is `read_cfg`. -/
def readCfgAnalysis : FileAnalysis :=
  analyze_file "cfgmod.py" (.ok (.module [readCfgFn]))

/-- A parsed file with no functions and no classes (e.g. a zero-byte file). -/
def emptyFA : FileAnalysis :=
  { module := "m", filepath := some "m.py", functions := [], classes := [],
    imports := [], error := none }

/-- Sorted by descending score — the invariant the insertion sort preserves. -/
def scoredSorted (l : List (Rat × FileAnalysis)) : Prop :=
  List.Pairwise (fun z w => w.1 ≤ z.1) l

/-- A three-file candidate list whose middle file fails to parse. -/
def demoFiles : List (String × Except String Py) :=
  [("pkg/good.py", .ok (.module [fooFn])),
   ("pkg/bad.py", .error "SyntaxError: invalid syntax (bad.py, line 1)"),
   ("pkg/other.py", .ok (.module [readCfgFn]))]

set_option maxRecDepth 100000

/-! ## Theorems -/

/-- **C2** (code bug).  `_classify_call` sets the indicators by substring on
the lowercased call name exactly as specified for file I/O, subprocess and the
HTTP client families, and dotted `os.*` / `*.path.*` calls set OS-access — but
a bare call to `Path(...)` does not: the keyword `"Path"` is compared against
the lowercased name, which can never contain a capital letter, so the OS
indicator stays `False` both for the classifier on the resolved name and for
the end-to-end analysis of a body that only calls `Path("/tmp/x")`. -/
theorem classify_call_bare_path_gap :
    (classify_call "Path" {}).uses_os = false ∧
    (analyze_function barePathFn).complexity_indicators.uses_os = false ∧
    (classify_call "os.path.exists" {}).uses_os = true ∧
    (classify_call "shutil.path.join" {}).uses_os = true ∧
    (classify_call "open" {}).uses_file_io = true ∧
    (classify_call "Path.read_text" {}).uses_file_io = true ∧
    (classify_call "subprocess.run" {}).uses_subprocess = true ∧
    (classify_call "requests.get" {}).uses_http = true ∧
    (classify_call "httpx.get" {}).uses_http = true ∧
    (classify_call "aiohttp.request" {}).uses_http = true ∧
    (classify_call "urllib.request.urlopen" {}).uses_http = true := by
  decide

/-- **C1** (counterexample).  A function whose body calls `os.getcwd()` has
the OS-access indicator set, yet `resolve_mock_strategies` returns no strategy
at all: the OS branch additionally requires some recorded call to contain
`"os.path.exists"` or `"Path"`, which none does here. -/
theorem resolve_os_indicator_without_strategy :
    (analyze_function osFn).complexity_indicators.uses_os = true ∧
    resolve_mock_strategies (analyze_function osFn) "util" = [] := by
  decide

/-- **C10**.  The body of `fooFn` (`def f(): return foo()`) holds exactly one
syntactic call expression, yet the recorded call list holds its name three
times — once for the traversal started at each enclosing node (the function
definition, the return statement, and the call itself), because
`_analyze_function` applies the fully recursive visitor to every node of
`ast.walk`. -/
theorem nested_call_recorded_repeatedly :
    Py.callNodeCount fooFn = 1 ∧
    (analyze_function fooFn).calls = ["foo", "foo", "foo"] ∧
    1 < ((analyze_function fooFn).calls.count "foo") := by
  decide

/-- **C7**.  Analysis and strategy resolution are deterministic: both are pure
functions of the file content (here, of its parse outcome) and of the function
metadata, so two runs on equal inputs agree on every field. -/
theorem analysis_and_resolution_deterministic
    (fp₁ fp₂ : String) (p₁ p₂ : Except String Py) (fi₁ fi₂ : FunctionInfo) (m₁ m₂ : String)
    (hfp : fp₁ = fp₂) (hp : p₁ = p₂) (hfi : fi₁ = fi₂) (hm : m₁ = m₂) :
    (analyze_file fp₁ p₁).functions = (analyze_file fp₂ p₂).functions ∧
    (analyze_file fp₁ p₁).classes = (analyze_file fp₂ p₂).classes ∧
    (analyze_file fp₁ p₁).imports = (analyze_file fp₂ p₂).imports ∧
    (analyze_file fp₁ p₁).error = (analyze_file fp₂ p₂).error ∧
    analyze_file fp₁ p₁ = analyze_file fp₂ p₂ ∧
    resolve_mock_strategies fi₁ m₁ = resolve_mock_strategies fi₂ m₂ := by
  subst hfp; subst hp; subst hfi; subst hm
  exact ⟨rfl, rfl, rfl, rfl, rfl, rfl⟩

theorem analysis_and_resolution_deterministic_witness :
    analyze_file "pkg/good.py" (.ok (.module [fooFn])) =
      analyze_file "pkg/good.py" (.ok (.module [fooFn])) ∧
    resolve_mock_strategies (analyze_function fooFn) "good" =
      resolve_mock_strategies (analyze_function fooFn) "good" :=
  ⟨(analysis_and_resolution_deterministic "pkg/good.py" "pkg/good.py"
      (.ok (.module [fooFn])) (.ok (.module [fooFn]))
      (analyze_function fooFn) (analyze_function fooFn) "good" "good"
      rfl rfl rfl rfl).2.2.2.2.1,
   (analysis_and_resolution_deterministic "pkg/good.py" "pkg/good.py"
      (.ok (.module [fooFn])) (.ok (.module [fooFn]))
      (analyze_function fooFn) (analyze_function fooFn) "good" "good"
      rfl rfl rfl rfl).2.2.2.2.2⟩

/-- **C8**.  A file analysis with no functions and no classes makes
`generate_test_file` return the `None` sentinel before any directory creation
or file write (the embedding returns the written path/content pair otherwise,
so `none` means no output file); and the analysis of a zero-byte file — an
empty module — has exactly this shape, with a null error. -/
theorem generate_test_file_empty_sentinel (a : FileAnalysis) (dir : String)
    (hf : a.functions = []) (hc : a.classes = []) :
    generate_test_file a dir = none ∧
    (analyze_file "empty.py" (.ok (.module []))).functions = [] ∧
    (analyze_file "empty.py" (.ok (.module []))).classes = [] ∧
    (analyze_file "empty.py" (.ok (.module []))).error = none := by
  refine ⟨?_, by decide, by decide, by decide⟩
  simp [generate_test_file, hf, hc]

theorem generate_test_file_empty_sentinel_witness :
    generate_test_file (analyze_file "empty.py" (.ok (.module []))) "tests/generated" = none :=
  (generate_test_file_empty_sentinel (analyze_file "empty.py" (.ok (.module [])))
    "tests/generated" (by decide) (by decide)).1

/-- **C6** (counterexample).  A parsed file with no error that matches no
exclusion pattern is nevertheless absent from the selection when it has no
functions and no classes: the source drops such files before scoring, while
the claim would have it scored (at 0) and returned. -/
theorem select_targets_drops_empty_file :
    emptyFA.error = none ∧ excludedFile emptyFA = false ∧
    select_test_targets [emptyFA] 10 = [] := by
  decide

/-- **C4** (counterexample).  For `fetch_data(url, timeout=30)` whose body
calls `requests.get` — a recognized HTTP client family — exactly one network
strategy is resolved, but the synthesized class has only three cases and no
connection-failure case: the HTTP-specific branch looks for a strategy whose
target contains `"http"`, and the requests-family target
(`client.requests`) does not. -/
theorem fetch_data_requests_missing_connection_failure :
    (analyze_function fetchFnRequests).complexity_indicators.uses_http = true ∧
    (resolve_mock_strategies (analyze_function fetchFnRequests) "client").countP isNetStrat = 1 ∧
    (resolve_mock_strategies (analyze_function fetchFnRequests) "client").length = 1 ∧
    (generate_function_test_cases (analyze_function fetchFnRequests) "client").length = 3 ∧
    ((generate_function_test_cases (analyze_function fetchFnRequests) "client").all
      (fun c => !(strContains c "http_error"))) = true := by
  decide

/-- **C4** (amended).  For `fetch_data(url, timeout=30)` whose body calls the
default (httpx) client family, exactly one network-mock strategy is resolved
and the synthesized class holds exactly the four claimed cases: success,
degenerate-url (empty input), parametrized boundary, and connection failure. -/
theorem fetch_data_httpx_four_cases :
    (resolve_mock_strategies (analyze_function fetchFnHttpx) "api").countP isNetStrat = 1 ∧
    (resolve_mock_strategies (analyze_function fetchFnHttpx) "api").length = 1 ∧
    (generate_function_test_cases (analyze_function fetchFnHttpx) "api").length = 4 ∧
    ((generate_function_test_cases (analyze_function fetchFnHttpx) "api").any
      (fun c => strContains c "def test_fetch_data_success")) = true ∧
    ((generate_function_test_cases (analyze_function fetchFnHttpx) "api").any
      (fun c => strContains c "def test_fetch_data_empty_input")) = true ∧
    ((generate_function_test_cases (analyze_function fetchFnHttpx) "api").any
      (fun c => strContains c "def test_fetch_data_various_inputs")) = true ∧
    ((generate_function_test_cases (analyze_function fetchFnHttpx) "api").any
      (fun c => strContains c "def test_fetch_data_http_error")) = true := by
  decide

/-- **C3** (counterexample).  The module holding only `read_cfg(path)` (file
I/O is its sole side effect) gets the import line naming `patch`, `MagicMock`
and `mock_open`, yet no synthesized case of the module mentions `MagicMock`:
the import is superfluous, because the patch/MagicMock flags are set together
whenever any strategy exists at all. -/
theorem magicmock_import_superfluous :
    readCfgAnalysis.functions.length = 1 ∧
    readCfgAnalysis.classes = [] ∧
    (generate_test_file readCfgAnalysis "tests/generated").isSome = true ∧
    mock_import_lines readCfgAnalysis.functions readCfgAnalysis.classes readCfgAnalysis.module =
      ["from unittest.mock import patch, MagicMock, mock_open"] ∧
    ((readCfgAnalysis.functions.map
        (fun f => generate_function_test_cases f readCfgAnalysis.module)).flatten.all
      (fun c => !(strContains c "MagicMock"))) = true := by
  decide

/-- An if-then-else of two non-empty strings is non-empty. -/
theorem str_ite_ne {c : Prop} [Decidable c] {a b : String} (ha : a ≠ "") (hb : b ≠ "") :
    (if c then a else b) ≠ "" := by
  by_cases h : c
  · rwa [if_pos h]
  · rwa [if_neg h]

theorem inferKeywordValue_ne_empty (nm : String) : inferKeywordValue nm ≠ "" := by
  unfold inferKeywordValue
  repeat' first | apply str_ite_ne | decide

theorem emptyKeywordValue_ne_empty (nm : String) : emptyKeywordValue nm ≠ "" := by
  unfold emptyKeywordValue
  repeat' first | apply str_ite_ne | decide

/-- **C9**.  The argument heuristics are total — for every parameter name and
declared default, both the happy-path and the degenerate mapping return a
non-empty literal — and a non-trivial default (not empty, not the text
`None`, not an empty quoted string literal of either quote kind) is returned
verbatim as the happy-path value. -/
theorem argument_heuristics_total (p : String) (d : Option String) :
    infer_test_value p d ≠ "" ∧ infer_empty_value p ≠ "" ∧
    (∀ v, d = some v → v ≠ "" → v ≠ "None" → v ≠ "\x27\x27" → v ≠ "\"\"" →
      infer_test_value p d = v) := by
  refine ⟨?_, ?_, ?_⟩
  · unfold infer_test_value
    split_ifs with h
    · simp only [bne_iff_ne, Bool.and_eq_true] at h
      exact h.1.1.1
    · exact inferKeywordValue_ne_empty (pyLower p)
  · exact emptyKeywordValue_ne_empty (pyLower p)
  · intro v hv h1 h2 h3 h4
    subst hv
    unfold infer_test_value
    rw [if_pos]
    · rfl
    · simp only [Option.getD_some, bne_iff_ne, Bool.and_eq_true]
      exact ⟨⟨⟨h1, h2⟩, h3⟩, h4⟩

theorem argument_heuristics_total_witness :
    infer_test_value "branch" (some "30") = "30" ∧ infer_empty_value "branch" ≠ "" :=
  ⟨(argument_heuristics_total "branch" (some "30")).2.2 "30" rfl (by decide) (by decide)
      (by decide) (by decide),
   (argument_heuristics_total "branch" (some "30")).2.1⟩

/-! Kind lemmas: each strategy constant has exactly one kind (they are told
apart by their bound parameter names). -/

theorem isFileStrat_file : isFileStrat fileStrategy = true := rfl

theorem isFileStrat_sub (m : String) : isFileStrat (subStrategy m) = false := rfl

theorem isFileStrat_httpx (m : String) : isFileStrat (httpxStrategy m) = false := rfl

theorem isFileStrat_requests (m : String) : isFileStrat (requestsStrategy m) = false := rfl

theorem isFileStrat_os (m : String) : isFileStrat (osStrategy m) = false := rfl

theorem isSubStrat_file : isSubStrat fileStrategy = false := rfl

theorem isSubStrat_sub (m : String) : isSubStrat (subStrategy m) = true := rfl

theorem isSubStrat_httpx (m : String) : isSubStrat (httpxStrategy m) = false := rfl

theorem isSubStrat_requests (m : String) : isSubStrat (requestsStrategy m) = false := rfl

theorem isSubStrat_os (m : String) : isSubStrat (osStrategy m) = false := rfl

theorem isNetStrat_file : isNetStrat fileStrategy = false := rfl

theorem isNetStrat_sub (m : String) : isNetStrat (subStrategy m) = false := rfl

theorem isNetStrat_httpx (m : String) : isNetStrat (httpxStrategy m) = true := rfl

theorem isNetStrat_requests (m : String) : isNetStrat (requestsStrategy m) = true := rfl

theorem isNetStrat_os (m : String) : isNetStrat (osStrategy m) = false := rfl

theorem isOsStrat_file : isOsStrat fileStrategy = false := rfl

theorem isOsStrat_sub (m : String) : isOsStrat (subStrategy m) = false := rfl

theorem isOsStrat_httpx (m : String) : isOsStrat (httpxStrategy m) = false := rfl

theorem isOsStrat_requests (m : String) : isOsStrat (requestsStrategy m) = false := rfl

theorem isOsStrat_os (m : String) : isOsStrat (osStrategy m) = true := rfl

/-- **C1** (amended).  For every function metadata record and module
identifier, the resolved list is its file-I/O strategies followed by its
subprocess, network and OS strategies (the fixed resolution order); the
file-I/O, subprocess and network indicators each contribute exactly one
strategy when set (network branching to the requests family when a recorded
call contains that substring, else defaulting to httpx) — but the OS-access
indicator contributes its single strategy only when some recorded call
additionally contains the text os.path.exists or Path, and otherwise
contributes none. -/
theorem resolve_strategies_ordered_blocks (fi : FunctionInfo) (m : String) :
    resolve_mock_strategies fi m =
      (resolve_mock_strategies fi m).filter isFileStrat ++
      (resolve_mock_strategies fi m).filter isSubStrat ++
      (resolve_mock_strategies fi m).filter isNetStrat ++
      (resolve_mock_strategies fi m).filter isOsStrat ∧
    (resolve_mock_strategies fi m).filter isFileStrat =
      (if fi.complexity_indicators.uses_file_io || fi.calls.contains "open"
       then [fileStrategy] else []) ∧
    (resolve_mock_strategies fi m).filter isSubStrat =
      (if fi.complexity_indicators.uses_subprocess ||
          fi.calls.any (fun c => strContains c "subprocess")
       then [subStrategy m] else []) ∧
    (resolve_mock_strategies fi m).filter isNetStrat =
      (if fi.complexity_indicators.uses_http then
        (if fi.calls.any (fun c => strContains c "requests")
         then [requestsStrategy m] else [httpxStrategy m])
       else []) ∧
    (resolve_mock_strategies fi m).filter isOsStrat =
      (if fi.complexity_indicators.uses_os && osStrategyTrigger fi.calls
       then [osStrategy m] else []) := by
  unfold resolve_mock_strategies osStrategyTrigger
  cases h1 : (fi.complexity_indicators.uses_file_io || fi.calls.contains "open") <;>
  cases h2 : (fi.complexity_indicators.uses_subprocess ||
      fi.calls.any (fun c => strContains c "subprocess")) <;>
  cases h3 : fi.complexity_indicators.uses_http <;>
  cases h4 : fi.calls.any (fun c => strContains c "requests") <;>
  cases h5 : fi.complexity_indicators.uses_os <;>
  cases h6 : fi.calls.any (fun c => strContains c "os.path.exists" || strContains c "Path") <;>
  simp only [h1, h2, h3, h4, h5, h6] <;>
  simp [beq_iff_eq,
    isFileStrat_file, isFileStrat_sub, isFileStrat_httpx, isFileStrat_requests, isFileStrat_os,
    isSubStrat_file, isSubStrat_sub, isSubStrat_httpx, isSubStrat_requests, isSubStrat_os,
    isNetStrat_file, isNetStrat_sub, isNetStrat_httpx, isNetStrat_requests, isNetStrat_os,
    isOsStrat_file, isOsStrat_sub, isOsStrat_httpx, isOsStrat_requests, isOsStrat_os]

/-- Unrolling the `analyze_directory` accumulation loop: it appends exactly
one record per candidate file until the bound is reached. -/
theorem analyzeDirGo_spec (maxF : Nat) (files : List (String × Except String Py))
    (acc : List FileAnalysis) :
    analyzeDirGo maxF files acc =
      acc ++ (files.take (maxF - acc.length)).map (fun pr => analyze_file pr.1 pr.2) := by
  induction files generalizing acc with
  | nil => simp [analyzeDirGo]
  | cons pr rest ih =>
      obtain ⟨p, r⟩ := pr
      rw [analyzeDirGo]
      by_cases hge : acc.length ≥ maxF
      · rw [if_pos hge]
        have h0 : maxF - acc.length = 0 := Nat.sub_eq_zero_of_le hge
        simp [h0]
      · rw [if_neg hge]
        rw [ih (acc ++ [analyze_file p r])]
        have hsplit : maxF - acc.length = (maxF - (acc.length + 1)) + 1 := by omega
        rw [hsplit]
        simp [List.take_succ_cons]

theorem analyze_directory_eq (files : List (String × Except String Py)) (maxF : Nat) :
    analyze_directory files maxF = (files.take maxF).map (fun pr => analyze_file pr.1 pr.2) := by
  unfold analyze_directory
  rw [analyzeDirGo_spec maxF files []]
  simp

/-- **C5**.  Unparseable content never raises: `analyze_file` returns a record
whose error field holds the failure description and whose function, class
and import lists are empty; `analyze_directory` still gives every candidate
file within the bound its own record, at its own position — a malformed file
never aborts the scan. -/
theorem parse_failure_isolated (fp e : String) (files : List (String × Except String Py))
    (maxF i : Nat) (hi : i < min maxF files.length) :
    analyze_file fp (.error e) =
      { module := fp, filepath := none, functions := [], classes := [],
        imports := [], error := some e } ∧
    (analyze_directory files maxF).length = min maxF files.length ∧
    (analyze_directory files maxF)[i]? =
      (files[i]?).map (fun pr => analyze_file pr.1 pr.2) := by
  refine ⟨rfl, ?_, ?_⟩
  · rw [analyze_directory_eq]
    simp [List.length_take]
  · rw [analyze_directory_eq]
    rw [List.getElem?_map, List.getElem?_take]
    rw [if_pos (by omega : i < maxF)]

theorem parse_failure_isolated_witness :
    analyze_file "pkg/bad.py" (.error "SyntaxError: invalid syntax (bad.py, line 1)") =
      { module := "pkg/bad.py", filepath := none, functions := [], classes := [],
        imports := [], error := some "SyntaxError: invalid syntax (bad.py, line 1)" } ∧
    (analyze_directory demoFiles 50).length = min 50 demoFiles.length ∧
    (analyze_directory demoFiles 50)[2]? =
      (demoFiles[2]?).map (fun pr => analyze_file pr.1 pr.2) :=
  parse_failure_isolated "pkg/bad.py" "SyntaxError: invalid syntax (bad.py, line 1)"
    demoFiles 50 2 (by decide)

/-- One step of the import-flag loop, as a record update. -/
theorem needsStep_eq (m : String) (needs : MockNeeds) (fi : FunctionInfo) :
    needsStep m needs fi =
      { patch := needs.patch || !(resolve_mock_strategies fi m).isEmpty,
        magicmock := needs.magicmock || !(resolve_mock_strategies fi m).isEmpty,
        mock_open := needs.mock_open ||
          (resolve_mock_strategies fi m).any (fun s => strContains s.target "open"),
        async_mock := needs.async_mock || fi.is_async } := by
  unfold needsStep
  cases h1 : (resolve_mock_strategies fi m).isEmpty <;>
  cases h2 : (resolve_mock_strategies fi m).any (fun s => strContains s.target "open") <;>
  cases h3 : fi.is_async <;>
  simp [h1, h2, h3]

theorem foldl_needsStep (m : String) (l : List FunctionInfo) (init : MockNeeds) :
    l.foldl (needsStep m) init =
      { patch := init.patch || l.any (fun f => !(resolve_mock_strategies f m).isEmpty),
        magicmock := init.magicmock || l.any (fun f => !(resolve_mock_strategies f m).isEmpty),
        mock_open := init.mock_open ||
          l.any (fun f => (resolve_mock_strategies f m).any (fun s => strContains s.target "open")),
        async_mock := init.async_mock || l.any (fun f => f.is_async) } := by
  induction l generalizing init with
  | nil => simp
  | cons f rest ih =>
      rw [List.foldl_cons, needsStep_eq, ih]
      simp [Bool.or_assoc]

theorem foldl_classes_needsStep (m : String) (classes : List ClassInfo) (init : MockNeeds) :
    classes.foldl (fun n cls => cls.methods.foldl (needsStep m) n) init =
      { patch := init.patch || classes.any
          (fun c => c.methods.any (fun me => !(resolve_mock_strategies me m).isEmpty)),
        magicmock := init.magicmock || classes.any
          (fun c => c.methods.any (fun me => !(resolve_mock_strategies me m).isEmpty)),
        mock_open := init.mock_open || classes.any (fun c => c.methods.any
          (fun me => (resolve_mock_strategies me m).any (fun s => strContains s.target "open"))),
        async_mock := init.async_mock || classes.any
          (fun c => c.methods.any (fun me => me.is_async)) } := by
  induction classes generalizing init with
  | nil => simp
  | cons c rest ih =>
      rw [List.foldl_cons, foldl_needsStep, ih]
      simp [Bool.or_assoc]

/-- **C3** (amended).  The import line is computed from coarse per-module
flags, not from the synthesized case texts: patch and MagicMock are named
exactly when some function or class method resolves at least one strategy,
mock_open exactly when one of those strategies targets a name containing
open, and AsyncMock exactly when some function or method is asynchronous;
the line lists the flagged helpers in that fixed order.  (The flags can name
helpers that appear in no synthesized case — see the counterexample.) -/
theorem mock_import_line_flags (functions : List FunctionInfo) (classes : List ClassInfo)
    (m : String) :
    (computeNeeds functions classes m).patch =
      (functions.any (fun f => !(resolve_mock_strategies f m).isEmpty) ||
       classes.any (fun c => c.methods.any (fun me => !(resolve_mock_strategies me m).isEmpty))) ∧
    (computeNeeds functions classes m).magicmock = (computeNeeds functions classes m).patch ∧
    (computeNeeds functions classes m).mock_open =
      (functions.any
          (fun f => (resolve_mock_strategies f m).any (fun s => strContains s.target "open")) ||
       classes.any (fun c => c.methods.any
          (fun me => (resolve_mock_strategies me m).any (fun s => strContains s.target "open")))) ∧
    (computeNeeds functions classes m).async_mock =
      (functions.any (fun f => f.is_async) ||
       classes.any (fun c => c.methods.any (fun me => me.is_async))) ∧
    mock_import_lines functions classes m =
      (if (computeNeeds functions classes m).patch || (computeNeeds functions classes m).magicmock ||
          (computeNeeds functions classes m).mock_open ||
          (computeNeeds functions classes m).async_mock then
        ["from unittest.mock import " ++ String.intercalate ", "
          ((if (computeNeeds functions classes m).patch then ["patch"] else []) ++
           (if (computeNeeds functions classes m).magicmock then ["MagicMock"] else []) ++
           (if (computeNeeds functions classes m).mock_open then ["mock_open"] else []) ++
           (if (computeNeeds functions classes m).async_mock then ["AsyncMock"] else []))]
       else []) := by
  have hc : computeNeeds functions classes m =
      { patch := functions.any (fun f => !(resolve_mock_strategies f m).isEmpty) ||
          classes.any (fun c => c.methods.any (fun me => !(resolve_mock_strategies me m).isEmpty)),
        magicmock := functions.any (fun f => !(resolve_mock_strategies f m).isEmpty) ||
          classes.any (fun c => c.methods.any (fun me => !(resolve_mock_strategies me m).isEmpty)),
        mock_open := functions.any
            (fun f => (resolve_mock_strategies f m).any (fun s => strContains s.target "open")) ||
          classes.any (fun c => c.methods.any
            (fun me => (resolve_mock_strategies me m).any (fun s => strContains s.target "open"))),
        async_mock := functions.any (fun f => f.is_async) ||
          classes.any (fun c => c.methods.any (fun me => me.is_async)) } := by
    unfold computeNeeds
    rw [foldl_needsStep, foldl_classes_needsStep]
    simp
  refine ⟨?_, ?_, ?_, ?_, rfl⟩ <;> rw [hc]


theorem mem_insertDesc (x a : Rat × FileAnalysis) (l : List (Rat × FileAnalysis)) :
    a ∈ insertDesc x l ↔ a = x ∨ a ∈ l := by
  induction l with
  | nil => simp [insertDesc]
  | cons y ys ih =>
      by_cases h : x.1 ≤ y.1
      · simp [insertDesc, h, ih]
        tauto
      · simp [insertDesc, h, ih]

theorem length_insertDesc (x : Rat × FileAnalysis) (l : List (Rat × FileAnalysis)) :
    (insertDesc x l).length = l.length + 1 := by
  induction l with
  | nil => rfl
  | cons y ys ih =>
      by_cases h : x.1 ≤ y.1 <;> simp [insertDesc, h, ih]

theorem insertDesc_sorted (x : Rat × FileAnalysis) (l : List (Rat × FileAnalysis))
    (hl : scoredSorted l) : scoredSorted (insertDesc x l) := by
  induction l with
  | nil => simp [insertDesc, scoredSorted]
  | cons y ys ih =>
      rw [scoredSorted, List.pairwise_cons] at hl
      obtain ⟨hy, hys⟩ := hl
      by_cases h : x.1 ≤ y.1
      · rw [scoredSorted]
        simp only [insertDesc, if_pos h]
        rw [List.pairwise_cons]
        constructor
        · intro z hz
          rcases (mem_insertDesc x z ys).mp hz with hzx | hzy
          · exact hzx ▸ h
          · exact hy z hzy
        · exact ih hys
      · rw [scoredSorted]
        simp only [insertDesc, if_neg h]
        rw [List.pairwise_cons]
        constructor
        · intro z hz
          rcases List.mem_cons.mp hz with hzy | hzys
          · exact hzy ▸ le_of_lt (lt_of_not_le h)
          · exact le_trans (hy z hzys) (le_of_lt (lt_of_not_le h))
        · rw [List.pairwise_cons]
          exact ⟨hy, hys⟩

theorem insertDesc_filter_score (x : Rat × FileAnalysis) (l : List (Rat × FileAnalysis))
    (s : Rat) (hl : scoredSorted l) :
    (insertDesc x l).filter (fun z => z.1 == s) =
      (if x.1 == s then l.filter (fun z => z.1 == s) ++ [x]
       else l.filter (fun z => z.1 == s)) := by
  induction l with
  | nil => by_cases h : x.1 = s <;> simp [insertDesc, h]
  | cons y ys ih =>
      rw [scoredSorted, List.pairwise_cons] at hl
      obtain ⟨hy, hys⟩ := hl
      by_cases h : x.1 ≤ y.1
      · simp only [insertDesc, if_pos h]
        rw [List.filter_cons, List.filter_cons]
        rw [ih hys]
        by_cases hx : x.1 = s <;> by_cases hyv : y.1 = s <;>
          simp [hx, hyv]
      · simp only [insertDesc, if_neg h]
        rw [List.filter_cons]
        by_cases hx : x.1 = s
        · have hlt : y.1 < x.1 := lt_of_not_le h
          have hnil : (y :: ys).filter (fun z => z.1 == s) = [] := by
            rw [List.filter_eq_nil_iff]
            intro z hz
            simp only [beq_iff_eq]
            intro hc
            rcases List.mem_cons.mp hz with hzy | hzys
            · subst hzy
              linarith
            · have hzy1 : z.1 ≤ y.1 := hy z hzys
              linarith
          rw [hnil]
          simp [hx]
        · simp [hx]

theorem sortAux_sorted (l acc : List (Rat × FileAnalysis)) (hacc : scoredSorted acc) :
    scoredSorted (l.foldl (fun a x => insertDesc x a) acc) := by
  induction l generalizing acc with
  | nil => exact hacc
  | cons x rest ih => exact ih _ (insertDesc_sorted x acc hacc)

theorem sortScoredDesc_sorted (l : List (Rat × FileAnalysis)) :
    scoredSorted (sortScoredDesc l) :=
  sortAux_sorted l [] (by rw [scoredSorted]; exact List.Pairwise.nil)

theorem sortAux_mem (l acc : List (Rat × FileAnalysis)) (a : Rat × FileAnalysis) :
    a ∈ l.foldl (fun a x => insertDesc x a) acc ↔ a ∈ acc ∨ a ∈ l := by
  induction l generalizing acc with
  | nil => simp
  | cons x rest ih =>
      rw [List.foldl_cons, ih]
      rw [mem_insertDesc]
      simp [List.mem_cons]
      tauto

theorem sortAux_length (l acc : List (Rat × FileAnalysis)) :
    (l.foldl (fun a x => insertDesc x a) acc).length = acc.length + l.length := by
  induction l generalizing acc with
  | nil => simp
  | cons x rest ih =>
      rw [List.foldl_cons, ih, length_insertDesc]
      simp only [List.length_cons]
      omega

theorem sortAux_filter (l acc : List (Rat × FileAnalysis)) (s : Rat)
    (hacc : scoredSorted acc) :
    (l.foldl (fun a x => insertDesc x a) acc).filter (fun z => z.1 == s) =
      acc.filter (fun z => z.1 == s) ++ l.filter (fun z => z.1 == s) := by
  induction l generalizing acc with
  | nil => simp
  | cons x rest ih =>
      rw [List.foldl_cons, ih _ (insertDesc_sorted x acc hacc)]
      rw [insertDesc_filter_score x acc s hacc]
      rw [List.filter_cons]
      by_cases hx : x.1 = s <;> simp [hx]

theorem scoreEntry_eq (a : FileAnalysis) :
    scoreEntry a = if eligibleFile a then some (fileScore a, a) else none := by
  unfold scoreEntry eligibleFile
  cases h1 : a.error.isSome <;> cases h2 : excludedFile a <;>
    cases h3 : (a.functions.isEmpty && a.classes.isEmpty) <;> simp [h1, h2, h3]

theorem scored_eq (analyses : List FileAnalysis) :
    analyses.filterMap scoreEntry =
      (analyses.filter eligibleFile).map (fun a => (fileScore a, a)) := by
  induction analyses with
  | nil => rfl
  | cons a rest ih =>
      rw [List.filterMap_cons, List.filter_cons]
      cases h : eligibleFile a <;> simp [scoreEntry_eq, h, ih]

/-- **C6** (amended).  `select_test_targets` removes error records, files
matching the exclusion patterns, and additionally files with no functions and
no classes; each surviving file is scored 2 per function + 3 per class + 1
per true complexity indicator over functions + one half per true indicator
over class methods (`fileScore`); the result is at most the maximum count of
surviving files, ordered by descending score, and for every score value the
returned files of that score are an initial segment, in input order, of the
surviving files of that score (stable tie-breaking). -/
theorem select_targets_spec (analyses : List FileAnalysis) (maxT : Nat) :
    (select_test_targets analyses maxT).length =
      min maxT (analyses.filter eligibleFile).length ∧
    (∀ a ∈ select_test_targets analyses maxT, a ∈ analyses ∧ eligibleFile a = true) ∧
    List.Pairwise (fun a b => fileScore b ≤ fileScore a) (select_test_targets analyses maxT) ∧
    (∀ s : Rat, listLeads
      ((select_test_targets analyses maxT).filter (fun a => fileScore a == s))
      ((analyses.filter eligibleFile).filter (fun a => fileScore a == s))) := by
  have hscore : analyses.filterMap scoreEntry =
      (analyses.filter eligibleFile).map (fun a => (fileScore a, a)) := scored_eq analyses
  have hsorted : scoredSorted (sortScoredDesc (analyses.filterMap scoreEntry)) :=
    sortScoredDesc_sorted _
  have hmem_sorted : ∀ z ∈ sortScoredDesc (analyses.filterMap scoreEntry),
      z ∈ analyses.filterMap scoreEntry := by
    intro z hz
    rcases (sortAux_mem _ [] z).mp hz with h | h
    · exact absurd h (List.not_mem_nil z)
    · exact h
  have hinv : ∀ z ∈ sortScoredDesc (analyses.filterMap scoreEntry), z.1 = fileScore z.2 := by
    intro z hz
    have hz2 := hmem_sorted z hz
    rw [hscore] at hz2
    obtain ⟨b, _, rfl⟩ := List.mem_map.mp hz2
    rfl
  refine ⟨?_, ?_, ?_, ?_⟩
  · unfold select_test_targets
    rw [List.length_map, List.length_take]
    have hlen : (sortScoredDesc (analyses.filterMap scoreEntry)).length =
        (analyses.filter eligibleFile).length := by
      unfold sortScoredDesc
      rw [sortAux_length]
      rw [hscore, List.length_map]
      simp
    rw [hlen]
  · intro a ha
    unfold select_test_targets at ha
    obtain ⟨z, hz, rfl⟩ := List.mem_map.mp ha
    have hzs : z ∈ sortScoredDesc (analyses.filterMap scoreEntry) :=
      (List.take_sublist _ _).subset hz
    have hz2 := hmem_sorted z hzs
    rw [hscore] at hz2
    obtain ⟨b, hb, rfl⟩ := List.mem_map.mp hz2
    exact ⟨(List.mem_filter.mp hb).1, (List.mem_filter.mp hb).2⟩
  · unfold select_test_targets
    rw [List.pairwise_map]
    have htake : List.Pairwise (fun z w => w.1 ≤ z.1)
        ((sortScoredDesc (analyses.filterMap scoreEntry)).take maxT) :=
      hsorted.sublist (List.take_sublist _ _)
    refine htake.imp_of_mem ?_
    intro z w hz hw h
    have h1 := hinv z ((List.take_sublist _ _).subset hz)
    have h2 := hinv w ((List.take_sublist _ _).subset hw)
    rw [← h1, ← h2]
    exact h
  · intro s
    unfold select_test_targets
    rw [List.filter_map]
    have hcong : ((sortScoredDesc (analyses.filterMap scoreEntry)).take maxT).filter
          ((fun a => fileScore a == s) ∘ Prod.snd) =
        ((sortScoredDesc (analyses.filterMap scoreEntry)).take maxT).filter
          (fun z => z.1 == s) := by
      apply List.filter_congr
      intro z hz
      have hzz := hinv z ((List.take_sublist _ _).subset hz)
      simp [Function.comp, hzz]
    rw [hcong]
    have hsplit : ((sortScoredDesc (analyses.filterMap scoreEntry)).take maxT).filter
          (fun z => z.1 == s) ++
        ((sortScoredDesc (analyses.filterMap scoreEntry)).drop maxT).filter
          (fun z => z.1 == s) =
        (sortScoredDesc (analyses.filterMap scoreEntry)).filter (fun z => z.1 == s) := by
      rw [← List.filter_append, List.take_append_drop]
    have hfull : (sortScoredDesc (analyses.filterMap scoreEntry)).filter (fun z => z.1 == s) =
        ((analyses.filter eligibleFile).filter (fun a => fileScore a == s)).map
          (fun a => (fileScore a, a)) := by
      unfold sortScoredDesc
      rw [sortAux_filter _ [] s (by rw [scoredSorted]; exact List.Pairwise.nil)]
      rw [hscore]
      rw [List.filter_map]
      simp only [List.filter_nil, List.nil_append]
      rfl
    refine ⟨(((sortScoredDesc (analyses.filterMap scoreEntry)).drop maxT).filter
        (fun z => z.1 == s)).map Prod.snd, ?_⟩
    rw [← List.map_append, hsplit, hfull]
    rw [List.map_map]
    have hid : (Prod.snd ∘ fun a : FileAnalysis => (fileScore a, a)) = id := rfl
    rw [hid, List.map_id]

theorem select_targets_spec_witness :
    (select_test_targets [readCfgAnalysis] 10).length =
      min 10 ([readCfgAnalysis].filter eligibleFile).length ∧
    (readCfgAnalysis ∈ [readCfgAnalysis] ∧ eligibleFile readCfgAnalysis = true) ∧
    listLeads
      ((select_test_targets [readCfgAnalysis] 10).filter
        (fun a => fileScore a == fileScore readCfgAnalysis))
      (([readCfgAnalysis].filter eligibleFile).filter
        (fun a => fileScore a == fileScore readCfgAnalysis)) := by
  obtain ⟨h1, h2, _h3, h4⟩ := select_targets_spec [readCfgAnalysis] 10
  exact ⟨h1, h2 readCfgAnalysis (by decide), h4 (fileScore readCfgAnalysis)⟩

end QASpec
